import Mathlib

/-!
Verification of the Todo Store of `todo-list-rust` (`src/main.rs`).

The program is an actix-web HTTP service whose whole state is one
`Vec<Todo>` behind a mutex.  Each route handler locks the vector, reads
or mutates it, and builds an `HttpResponse`.  The lock makes every
handler body atomic, so each handler is embedded as a pure function
`List Todo → args → HttpResponse × List Todo` returning the response
together with the store contents after the call.

JSON bodies are produced in the source by `HttpResponse::...().json(v)`,
which serializes `v` with serde_json; `jsonEncodeString` below follows
serde_json's string escaping, and `jsonEncodeTodo` the derived
`Serialize` of `struct Todo` (fields in declaration order, compact
separators).
-/

set_option autoImplicit false

namespace TodoList

/-- `struct Todo` from `src/main.rs` lines 7-12: `id`, `title`, `completed`. -/
structure Todo where
  id : String
  title : String
  completed : Bool
deriving DecidableEq, Repr

/-- An HTTP response as the handlers construct it: a status code and the
body payload attached by `.json(...)` (already serialized to a string). -/
structure HttpResponse where
  status : Nat
  body : String
deriving DecidableEq, Repr

/-- Hex digit as written by serde_json's escape table (lowercase). -/
def hexDigit (n : Nat) : Char :=
  if n < 10 then Char.ofNat (48 + n) else Char.ofNat (87 + n)

/-- Four lowercase hex digits, for serde_json's `\uXXXX` escapes. -/
def hex4 (n : Nat) : String :=
  String.mk [hexDigit (n / 4096 % 16), hexDigit (n / 256 % 16),
             hexDigit (n / 16 % 16), hexDigit (n % 16)]

/-- serde_json escapes exactly `"`, `\` and control characters below
`0x20` (with short escapes for backspace, tab, newline, form feed and
carriage return); every other character is copied verbatim. -/
def jsonEscapeChar (c : Char) : String :=
  if c = '"' then "\\\""
  else if c = '\\' then "\\\\"
  else if c = '\x08' then "\\b"
  else if c = '\x09' then "\\t"
  else if c = '\x0a' then "\\n"
  else if c = '\x0c' then "\\f"
  else if c = '\x0d' then "\\r"
  else if c.toNat < 0x20 then "\\u" ++ hex4 c.toNat
  else String.singleton c

/-- serde_json serialization of a Rust `String`: the escaped text in
double quotes. -/
def jsonEncodeString (s : String) : String :=
  "\"" ++ String.join (s.toList.map jsonEscapeChar) ++ "\""

/-- serde_json serialization of a `bool`. -/
def jsonEncodeBool (b : Bool) : String :=
  if b then "true" else "false"

/-- Derived `Serialize` for `struct Todo`: fields in declaration order,
compact separators (`serde_json::to_string`). -/
def jsonEncodeTodo (t : Todo) : String :=
  "\x7b\"id\":" ++ jsonEncodeString t.id ++
  ",\"title\":" ++ jsonEncodeString t.title ++
  ",\"completed\":" ++ jsonEncodeBool t.completed ++ "\x7d"

/-- serde_json serialization of a `Vec<Todo>`. -/
def jsonEncodeTodoList (ts : List Todo) : String :=
  "[" ++ String.intercalate "," (ts.map jsonEncodeTodo) ++ "]"

/-- The message built by `format!("Todo with id \x7b\x7d not found", todo_id)`
in the three not-found branches (lines 43, 78, 94). -/
def notFoundMessage (todo_id : String) : String :=
  "Todo with id " ++ todo_id ++ " not found"

/-- The 404 response the handlers build:
`HttpResponse::NotFound().json(format!(...))` — note `.json`, so the
payload is the JSON serialization of the message string. -/
def notFoundResponse (todo_id : String) : HttpResponse :=
  { status := 404, body := jsonEncodeString (notFoundMessage todo_id) }

/-- Rust's `Iterator::position`: index of the first element satisfying
`p`, or `none`. Used by `update_todo` (line 73) and `delete_todo`
(line 89). -/
def position (p : Todo → Bool) : List Todo → Option Nat
  | [] => none
  | t :: ts => if p t then some 0 else (position p ts).map (· + 1)

/-- Handler `get_todos` (lines 28-33): `GET /todos`. Locks the store and
answers `200` with the JSON of a clone of the whole vector; the store is
not modified. -/
def get_todos (todos : List Todo) : HttpResponse × List Todo :=
  ({ status := 200, body := jsonEncodeTodoList todos }, todos)

/-- Handler `get_todo` (lines 35-45): `GET /todos/\x7bid\x7d`. `iter().find`
of the first todo whose `id` equals the path id; `200` with its JSON if
found, otherwise `404` with the JSON-encoded not-found message. The
store is not modified. -/
def get_todo (todos : List Todo) (todo_id : String) : HttpResponse × List Todo :=
  match todos.find? (fun t => t.id == todo_id) with
  | some todo => ({ status := 200, body := jsonEncodeTodo todo }, todos)
  | none => (notFoundResponse todo_id, todos)

/-- Handler `create_todo` (lines 48-63): `POST /todos`. Builds a new
`Todo` from the freshly generated `Uuid::new_v4().to_string()` (embedded
as the explicit argument `new_id`, since the generator is random) and
the request title, with `completed = false`; pushes it at the end of the
vector and answers `201` with its JSON. It cannot fail. -/
def create_todo (todos : List Todo) (new_id : String) (title : String) :
    HttpResponse × List Todo :=
  let new_todo : Todo := { id := new_id, title := title, completed := false }
  ({ status := 201, body := jsonEncodeTodo new_todo }, todos ++ [new_todo])

/-- Handler `update_todo` (lines 65-80): `PUT /todos/\x7bid\x7d`.
`iter().position` of the first todo whose `id` matches; if found,
assigns `todos[i].title = title` in place and answers `200` with the
JSON of the updated element, else `404`. The inner `none` branch is
unreachable: `position` only returns indices below the length (in Rust,
the indexing after `position` cannot panic). -/
def update_todo (todos : List Todo) (todo_id : String) (title : String) :
    HttpResponse × List Todo :=
  match position (fun t => t.id == todo_id) todos with
  | some i =>
    match todos[i]? with
    | some t =>
      let updated : Todo := { t with title := title }
      ({ status := 200, body := jsonEncodeTodo updated }, todos.set i updated)
    | none => ({ status := 500, body := "" }, todos)
  | none => (notFoundResponse todo_id, todos)

/-- Handler `delete_todo` (lines 82-96): `DELETE /todos/\x7bid\x7d`.
`iter().position` of the first match; if found, `Vec::remove` at that
index and `204` with `.json("")` (the payload is the JSON serialization
of the empty string), else `404`. -/
def delete_todo (todos : List Todo) (todo_id : String) :
    HttpResponse × List Todo :=
  match position (fun t => t.id == todo_id) todos with
  | some i => ({ status := 204, body := jsonEncodeString "" }, todos.eraseIdx i)
  | none => (notFoundResponse todo_id, todos)

/-- Modelled from the HTTP framework (actix-http, a dependency, not repo
code): its HTTP/1.1 encoder forces the body size to none for
informational (1xx), `204 No Content` and `304 Not Modified` responses,
so whatever payload the handler attached to a `204` is not sent on the
wire; all other responses carry the attached payload verbatim. -/
def wire_body (r : HttpResponse) : String :=
  if r.status < 200 || r.status == 204 || r.status == 304 then "" else r.body

/-- A sequence of `create_todo` calls, each with its generated id and
requested title, folded over the store. -/
def run_creates : List (String × String) → List Todo → List Todo
  | [], todos => todos
  | c :: rest, todos => run_creates rest (create_todo todos c.1 c.2).2

/-! ### Helper lemmas: first-match scans on a decomposed store -/

theorem position_append_first (pre post : List Todo) (t : Todo) (todo_id : String)
    (hpre : ∀ u ∈ pre, u.id ≠ todo_id) (ht : t.id = todo_id) :
    position (fun u => u.id == todo_id) (pre ++ t :: post) = some pre.length := by
  induction pre with
  | nil => simp [position, ht]
  | cons a as ih =>
    have ha : a.id ≠ todo_id := hpre a (List.mem_cons_self a as)
    have ih' := ih (fun u hu => hpre u (List.mem_cons_of_mem a hu))
    simp only [List.cons_append, position, beq_iff_eq, if_neg ha, List.append_eq, ih',
      Option.map_some', List.length_cons]

theorem position_eq_none_of_no_match (todos : List Todo) (todo_id : String)
    (h : ∀ u ∈ todos, u.id ≠ todo_id) :
    position (fun u => u.id == todo_id) todos = none := by
  induction todos with
  | nil => rfl
  | cons a as ih =>
    have ha : a.id ≠ todo_id := h a (List.mem_cons_self a as)
    have ih' := ih (fun u hu => h u (List.mem_cons_of_mem a hu))
    simp [position, ha, ih']

theorem find?_append_first (pre post : List Todo) (t : Todo) (todo_id : String)
    (hpre : ∀ u ∈ pre, u.id ≠ todo_id) (ht : t.id = todo_id) :
    (pre ++ t :: post).find? (fun u => u.id == todo_id) = some t := by
  induction pre with
  | nil => simp [List.find?_cons, ht]
  | cons a as ih =>
    have ha : a.id ≠ todo_id := hpre a (List.mem_cons_self a as)
    have ih' := ih (fun u hu => hpre u (List.mem_cons_of_mem a hu))
    simpa [List.find?_cons, ha] using ih'

theorem find?_eq_none_of_no_match (todos : List Todo) (todo_id : String)
    (h : ∀ u ∈ todos, u.id ≠ todo_id) :
    todos.find? (fun u => u.id == todo_id) = none := by
  induction todos with
  | nil => rfl
  | cons a as ih =>
    have ha : a.id ≠ todo_id := h a (List.mem_cons_self a as)
    have ih' := ih (fun u hu => h u (List.mem_cons_of_mem a hu))
    simp [List.find?_cons, ha, ih']

theorem getElem?_append_mid (pre post : List Todo) (t : Todo) :
    (pre ++ t :: post)[pre.length]? = some t := by
  induction pre with
  | nil => simp
  | cons a as ih => simpa using ih

theorem set_append_mid (pre post : List Todo) (t t' : Todo) :
    (pre ++ t :: post).set pre.length t' = pre ++ t' :: post := by
  induction pre with
  | nil => rfl
  | cons a as ih => simp [List.set, ih]

theorem eraseIdx_append_mid (pre post : List Todo) (t : Todo) :
    (pre ++ t :: post).eraseIdx pre.length = pre ++ post := by
  induction pre with
  | nil => rfl
  | cons a as ih => simp [List.eraseIdx, ih]

/-! ### Helper lemmas: handler behaviour on found / not-found ids -/

theorem get_todo_found (pre post : List Todo) (t : Todo) (todo_id : String)
    (hpre : ∀ u ∈ pre, u.id ≠ todo_id) (ht : t.id = todo_id) :
    get_todo (pre ++ t :: post) todo_id =
      ({ status := 200, body := jsonEncodeTodo t }, pre ++ t :: post) := by
  unfold get_todo
  rw [find?_append_first pre post t todo_id hpre ht]

theorem get_todo_not_found (todos : List Todo) (todo_id : String)
    (h : ∀ u ∈ todos, u.id ≠ todo_id) :
    get_todo todos todo_id = (notFoundResponse todo_id, todos) := by
  unfold get_todo
  rw [find?_eq_none_of_no_match todos todo_id h]

theorem get_todo_store_unchanged (todos : List Todo) (todo_id : String) :
    (get_todo todos todo_id).2 = todos := by
  unfold get_todo
  cases todos.find? (fun t => t.id == todo_id) <;> rfl

theorem update_todo_found (pre post : List Todo) (t : Todo) (todo_id title : String)
    (hpre : ∀ u ∈ pre, u.id ≠ todo_id) (ht : t.id = todo_id) :
    update_todo (pre ++ t :: post) todo_id title =
      ({ status := 200, body := jsonEncodeTodo { t with title := title } },
        pre ++ { t with title := title } :: post) := by
  unfold update_todo
  rw [position_append_first pre post t todo_id hpre ht]
  simp only [getElem?_append_mid, set_append_mid]

theorem update_todo_not_found (todos : List Todo) (todo_id title : String)
    (h : ∀ u ∈ todos, u.id ≠ todo_id) :
    update_todo todos todo_id title = (notFoundResponse todo_id, todos) := by
  unfold update_todo
  rw [position_eq_none_of_no_match todos todo_id h]

theorem delete_todo_found (pre post : List Todo) (t : Todo) (todo_id : String)
    (hpre : ∀ u ∈ pre, u.id ≠ todo_id) (ht : t.id = todo_id) :
    delete_todo (pre ++ t :: post) todo_id =
      ({ status := 204, body := jsonEncodeString "" }, pre ++ post) := by
  unfold delete_todo
  rw [position_append_first pre post t todo_id hpre ht]
  simp only [eraseIdx_append_mid]

theorem delete_todo_not_found (todos : List Todo) (todo_id : String)
    (h : ∀ u ∈ todos, u.id ≠ todo_id) :
    delete_todo todos todo_id = (notFoundResponse todo_id, todos) := by
  unfold delete_todo
  rw [position_eq_none_of_no_match todos todo_id h]

theorem run_creates_eq (calls : List (String × String)) (todos : List Todo) :
    run_creates calls todos =
      todos ++ calls.map (fun c => { id := c.1, title := c.2, completed := false }) := by
  induction calls generalizing todos with
  | nil => simp [run_creates]
  | cons c rest ih => simp [run_creates, create_todo, ih]

theorem wire_body_notFound (todo_id : String) :
    wire_body (notFoundResponse todo_id) = jsonEncodeString (notFoundMessage todo_id) := rfl

theorem filter_id_length_le_one (l : List Todo) (i : String)
    (hl : (l.map Todo.id).Nodup) :
    (l.filter (fun t => t.id == i)).length ≤ 1 := by
  induction l with
  | nil => simp
  | cons a as ih =>
    rw [List.map_cons, List.nodup_cons] at hl
    obtain ⟨ha, has⟩ := hl
    by_cases h : a.id = i
    · have hnone : as.filter (fun t => t.id == i) = [] := by
        refine List.filter_eq_nil_iff.mpr ?_
        intro t htmem
        simp only [beq_iff_eq]
        intro hti
        exact ha (by
          have : t.id ∈ as.map Todo.id := List.mem_map_of_mem Todo.id htmem
          rwa [hti, ← h] at this)
      simp [List.filter_cons, h, hnone]
    · have := ih has
      simpa [List.filter_cons, h] using this

/-! ### Claims -/

/-- C1: for every store in which the id occurs (decomposed at its first
occurrence), `update_todo` answers `200` with the matched Todo whose
`title` alone is replaced — `id` and `completed` are kept — and the
resulting store changes exactly that element, every other Todo (before
and after it) being unchanged. -/
theorem update_changes_only_title (pre post : List Todo) (t : Todo)
    (todo_id title : String)
    (hpre : ∀ u ∈ pre, u.id ≠ todo_id) (ht : t.id = todo_id) :
    update_todo (pre ++ t :: post) todo_id title =
      ({ status := 200,
         body := jsonEncodeTodo { id := t.id, title := title, completed := t.completed } },
        pre ++ { id := t.id, title := title, completed := t.completed } :: post) :=
  update_todo_found pre post t todo_id title hpre ht

theorem update_changes_only_title_witness :
    update_todo [⟨"a", "x", false⟩, ⟨"b", "y", true⟩] "b" "z" =
      ({ status := 200, body := jsonEncodeTodo ⟨"b", "z", true⟩ },
        [⟨"a", "x", false⟩, ⟨"b", "z", true⟩]) :=
  update_changes_only_title [⟨"a", "x", false⟩] [] ⟨"b", "y", true⟩ "b" "z"
    (by decide) rfl

/-- C2: `create_todo` always succeeds: for every store and every title
(the empty string included), it answers `201` with a Todo made of the
generated id, the given title and `completed = false`, and appends
exactly that Todo at the end of the collection. -/
theorem create_always_appends (todos : List Todo) (new_id title : String) :
    create_todo todos new_id title =
      ({ status := 201,
         body := jsonEncodeTodo { id := new_id, title := title, completed := false } },
        todos ++ [{ id := new_id, title := title, completed := false }]) := rfl

/-- C3: `get_todo` answers `200` with the Todo whose `id` matches when
one is present (store decomposed at the first occurrence), answers the
not-found response when no Todo matches, and never modifies the store. -/
theorem get_found_or_not_found (pre post todos : List Todo) (t : Todo)
    (todo_id : String) :
    ((∀ u ∈ pre, u.id ≠ todo_id) → t.id = todo_id →
        get_todo (pre ++ t :: post) todo_id =
          ({ status := 200, body := jsonEncodeTodo t }, pre ++ t :: post))
    ∧ ((∀ u ∈ todos, u.id ≠ todo_id) →
        get_todo todos todo_id = (notFoundResponse todo_id, todos))
    ∧ (get_todo todos todo_id).2 = todos :=
  ⟨fun hpre ht => get_todo_found pre post t todo_id hpre ht,
   fun h => get_todo_not_found todos todo_id h,
   get_todo_store_unchanged todos todo_id⟩

theorem get_found_or_not_found_witness :
    get_todo [⟨"a", "x", false⟩] "a" =
      ({ status := 200, body := jsonEncodeTodo ⟨"a", "x", false⟩ }, [⟨"a", "x", false⟩])
    ∧ get_todo [⟨"a", "x", false⟩] "b" = (notFoundResponse "b", [⟨"a", "x", false⟩]) :=
  ⟨(get_found_or_not_found [] [] [⟨"a", "x", false⟩] ⟨"a", "x", false⟩ "a").1
      (by decide) rfl,
   (get_found_or_not_found [] [] [⟨"a", "x", false⟩] ⟨"a", "x", false⟩ "b").2.1
      (by decide)⟩

/-- C4 counterexample: the claim quantifies over every store state
containing a Todo with the given id, but on a store holding two Todos
that share an id (such states are never produced by the uuid generator
but are not ruled out by the store) the second `delete_todo` with the
same id finds the remaining duplicate and answers `204`, not `404`. -/
theorem delete_second_time_counterexample :
    (delete_todo [⟨"a", "x", false⟩, ⟨"a", "y", false⟩] "a").1.status = 204
    ∧ (delete_todo [⟨"a", "x", false⟩, ⟨"a", "y", false⟩] "a").2.length = 1
    ∧ (delete_todo (delete_todo [⟨"a", "x", false⟩, ⟨"a", "y", false⟩] "a").2 "a").1.status = 204
    ∧ (delete_todo (delete_todo [⟨"a", "x", false⟩, ⟨"a", "y", false⟩] "a").2 "a").1.status ≠ 404 := by
  decide

/-- C4 amended: on every store containing exactly one Todo with the
given id, `delete_todo` removes exactly that Todo, answering
success-with-no-content, the length drops by one, and a second
`delete_todo` with the same id answers the not-found response leaving
the store unchanged. -/
theorem delete_removes_exactly_one (pre post : List Todo) (t : Todo)
    (todo_id : String)
    (hpre : ∀ u ∈ pre, u.id ≠ todo_id) (ht : t.id = todo_id)
    (hpost : ∀ u ∈ post, u.id ≠ todo_id) :
    delete_todo (pre ++ t :: post) todo_id =
      ({ status := 204, body := jsonEncodeString "" }, pre ++ post)
    ∧ (pre ++ post).length + 1 = (pre ++ t :: post).length
    ∧ delete_todo (pre ++ post) todo_id = (notFoundResponse todo_id, pre ++ post) := by
  refine ⟨delete_todo_found pre post t todo_id hpre ht, by simp; omega, ?_⟩
  refine delete_todo_not_found (pre ++ post) todo_id ?_
  intro u hu
  rcases List.mem_append.mp hu with h | h
  · exact hpre u h
  · exact hpost u h

theorem delete_removes_exactly_one_witness :
    delete_todo [⟨"a", "x", false⟩, ⟨"b", "y", false⟩] "a" =
      ({ status := 204, body := jsonEncodeString "" }, [⟨"b", "y", false⟩])
    ∧ ([⟨"b", "y", false⟩] : List Todo).length + 1 =
        ([⟨"a", "x", false⟩, ⟨"b", "y", false⟩] : List Todo).length
    ∧ delete_todo [⟨"b", "y", false⟩] "a" = (notFoundResponse "a", [⟨"b", "y", false⟩]) :=
  delete_removes_exactly_one [] [⟨"b", "y", false⟩] ⟨"a", "x", false⟩ "a"
    (by decide) rfl (by decide)

/-- C5: when no Todo in the store has the given id, both `update_todo`
and `delete_todo` answer the not-found response and return the store
exactly as it was: nothing is added, removed or modified. -/
theorem notfound_leaves_store_unchanged (todos : List Todo) (todo_id title : String)
    (h : ∀ u ∈ todos, u.id ≠ todo_id) :
    update_todo todos todo_id title = (notFoundResponse todo_id, todos)
    ∧ delete_todo todos todo_id = (notFoundResponse todo_id, todos) :=
  ⟨update_todo_not_found todos todo_id title h,
   delete_todo_not_found todos todo_id h⟩

theorem notfound_leaves_store_unchanged_witness :
    update_todo [⟨"a", "x", false⟩] "b" "z" = (notFoundResponse "b", [⟨"a", "x", false⟩])
    ∧ delete_todo [⟨"a", "x", false⟩] "b" = (notFoundResponse "b", [⟨"a", "x", false⟩]) :=
  notfound_leaves_store_unchanged [⟨"a", "x", false⟩] "b" "z" (by decide)

/-- C6: `get_todos` always succeeds with `200`, its body is the JSON of
the stored Todos in storage order (the very list, unreordered), the
store is returned unchanged, and on the empty store the body is `[]`. -/
theorem list_returns_snapshot (todos : List Todo) :
    get_todos todos = ({ status := 200, body := jsonEncodeTodoList todos }, todos)
    ∧ get_todos [] = ({ status := 200, body := "[]" }, ([] : List Todo)) :=
  ⟨rfl, rfl⟩

/-- C7 counterexample: the handlers build the 404 body with
`.json(format!(...))`, so serde_json wraps the message in double quotes;
the wire body is the JSON string, not the plain text the claim states
(shown here for GET, PUT and DELETE at the unused id `x`). -/
theorem notfound_body_not_plaintext :
    wire_body (get_todo [] "x").1 = "\"Todo with id x not found\""
    ∧ wire_body (get_todo [] "x").1 ≠ "Todo with id x not found"
    ∧ wire_body (update_todo [] "x" "t").1 ≠ "Todo with id x not found"
    ∧ wire_body (delete_todo [] "x").1 ≠ "Todo with id x not found" := by
  decide

/-- C7 amended: for every id with no matching Todo, GET, PUT and DELETE
on `/todos/\x7bid\x7d` answer `404` with a body equal to the JSON
serialization of the string `Todo with id \x7bid\x7d not found` — the
message in double quotes with serde escaping — rather than that plain
text. -/
theorem notfound_body_is_json_encoded (todos : List Todo) (todo_id title : String)
    (h : ∀ u ∈ todos, u.id ≠ todo_id) :
    ((get_todo todos todo_id).1.status = 404
      ∧ wire_body (get_todo todos todo_id).1 =
          jsonEncodeString ("Todo with id " ++ todo_id ++ " not found"))
    ∧ ((update_todo todos todo_id title).1.status = 404
      ∧ wire_body (update_todo todos todo_id title).1 =
          jsonEncodeString ("Todo with id " ++ todo_id ++ " not found"))
    ∧ ((delete_todo todos todo_id).1.status = 404
      ∧ wire_body (delete_todo todos todo_id).1 =
          jsonEncodeString ("Todo with id " ++ todo_id ++ " not found")) := by
  rw [get_todo_not_found todos todo_id h, update_todo_not_found todos todo_id title h,
    delete_todo_not_found todos todo_id h]
  exact ⟨⟨rfl, rfl⟩, ⟨rfl, rfl⟩, ⟨rfl, rfl⟩⟩

theorem notfound_body_is_json_encoded_witness :
    (get_todo [] "x").1.status = 404
    ∧ wire_body (delete_todo [] "x").1 =
        jsonEncodeString ("Todo with id " ++ "x" ++ " not found") :=
  ⟨(notfound_body_is_json_encoded [] "x" "t" (by decide)).1.1,
   (notfound_body_is_json_encoded [] "x" "t" (by decide)).2.2.2⟩

/-- C8: on every store containing a Todo with the given id, a successful
DELETE answers status `204` with an empty wire body (the handler
attaches `.json("")`, which the HTTP encoder drops for `204`), the
matched Todo being removed from the store. -/
theorem delete_success_204_empty_wire_body (pre post : List Todo) (t : Todo)
    (todo_id : String)
    (hpre : ∀ u ∈ pre, u.id ≠ todo_id) (ht : t.id = todo_id) :
    (delete_todo (pre ++ t :: post) todo_id).1.status = 204
    ∧ wire_body (delete_todo (pre ++ t :: post) todo_id).1 = ""
    ∧ (delete_todo (pre ++ t :: post) todo_id).2 = pre ++ post := by
  rw [delete_todo_found pre post t todo_id hpre ht]
  exact ⟨rfl, rfl, rfl⟩

theorem delete_success_204_empty_wire_body_witness :
    (delete_todo [⟨"a", "x", false⟩] "a").1.status = 204
    ∧ wire_body (delete_todo [⟨"a", "x", false⟩] "a").1 = ""
    ∧ (delete_todo [⟨"a", "x", false⟩] "a").2 = [] :=
  delete_success_204_empty_wire_body [] [] ⟨"a", "x", false⟩ "a" (by decide) rfl

/-- C9: for every sequence of Create calls starting from the empty
store, with the generator producing pairwise-distinct ids (the uuid
generator's guarantee — the store itself never checks), the resulting
collection is exactly one Todo per call, each with its generated id, its
requested title and `completed = false`; the ids are pairwise distinct,
so at most one Todo per id is ever stored. -/
theorem creates_yield_distinct_ids (calls : List (String × String))
    (hgen : (calls.map Prod.fst).Nodup) :
    run_creates calls [] =
      calls.map (fun c => { id := c.1, title := c.2, completed := false })
    ∧ (∀ t ∈ run_creates calls [], t.completed = false)
    ∧ ((run_creates calls []).map Todo.id).Nodup
    ∧ ∀ i : String, ((run_creates calls []).filter (fun t => t.id == i)).length ≤ 1 := by
  have he : run_creates calls [] =
      calls.map (fun c => { id := c.1, title := c.2, completed := false }) := by
    simpa using run_creates_eq calls []
  have hmap : ((run_creates calls []).map Todo.id) = calls.map Prod.fst := by
    rw [he, List.map_map]
    rfl
  refine ⟨he, ?_, ?_, ?_⟩
  · intro t htmem
    rw [he] at htmem
    obtain ⟨c, _, hc⟩ := List.mem_map.mp htmem
    rw [← hc]
  · rw [hmap]
    exact hgen
  · intro i
    refine filter_id_length_le_one (run_creates calls []) i ?_
    rw [hmap]
    exact hgen

theorem creates_yield_distinct_ids_witness :
    run_creates [("a", "x"), ("b", "y")] [] =
      [⟨"a", "x", false⟩, ⟨"b", "y", false⟩]
    ∧ ((run_creates [("a", "x"), ("b", "y")] []).map Todo.id).Nodup :=
  ⟨(creates_yield_distinct_ids [("a", "x"), ("b", "y")] (by decide)).1,
   (creates_yield_distinct_ids [("a", "x"), ("b", "y")] (by decide)).2.2.1⟩

/-- C10: on a store where several Todos may share the id (the tail
`post` is unconstrained and may hold further matches), `get_todo`,
`update_todo` and `delete_todo` all act on the first (earliest-inserted)
match only: get returns it, update rewrites only its title, delete
removes only it, and in every case the later part of the store — any
duplicate included — is left untouched. -/
theorem duplicate_ids_first_match_wins (pre post : List Todo) (t : Todo)
    (todo_id title : String)
    (hpre : ∀ u ∈ pre, u.id ≠ todo_id) (ht : t.id = todo_id) :
    get_todo (pre ++ t :: post) todo_id =
      ({ status := 200, body := jsonEncodeTodo t }, pre ++ t :: post)
    ∧ update_todo (pre ++ t :: post) todo_id title =
      ({ status := 200, body := jsonEncodeTodo { t with title := title } },
        pre ++ { t with title := title } :: post)
    ∧ delete_todo (pre ++ t :: post) todo_id =
      ({ status := 204, body := jsonEncodeString "" }, pre ++ post) :=
  ⟨get_todo_found pre post t todo_id hpre ht,
   update_todo_found pre post t todo_id title hpre ht,
   delete_todo_found pre post t todo_id hpre ht⟩

theorem duplicate_ids_first_match_wins_witness :
    get_todo [⟨"a", "x", false⟩, ⟨"a", "y", true⟩] "a" =
      ({ status := 200, body := jsonEncodeTodo ⟨"a", "x", false⟩ },
        [⟨"a", "x", false⟩, ⟨"a", "y", true⟩])
    ∧ update_todo [⟨"a", "x", false⟩, ⟨"a", "y", true⟩] "a" "z" =
      ({ status := 200, body := jsonEncodeTodo ⟨"a", "z", false⟩ },
        [⟨"a", "z", false⟩, ⟨"a", "y", true⟩])
    ∧ delete_todo [⟨"a", "x", false⟩, ⟨"a", "y", true⟩] "a" =
      ({ status := 204, body := jsonEncodeString "" }, [⟨"a", "y", true⟩]) :=
  duplicate_ids_first_match_wins [] [⟨"a", "y", true⟩] ⟨"a", "x", false⟩ "a" "z"
    (by decide) rfl

end TodoList
